import Mathlib

/-!
Shallow embedding of the moncomptepro authentication and account-verification
flows (user manager and official-contact-email-verification manager), together
with theorems checking the natural-language specification against them.

Modelling conventions:
* Timestamps are integers (milliseconds since epoch); the current clock value
  `now` is passed explicitly wherever the source reads `new Date()`.
* The database is an explicit list of records threaded through each flow.
* A thrown named error is an `Except.error` carrying an error kind; the
  JavaScript `TypeError` raised by a property access on `undefined` is the
  distinguished kind `Err.type_error`.
* Delegated security services (hashing, password verification, strength
  check, phone validation) are parameters bundled in `Services`; the token
  freshly produced by a token generator is an explicit argument `newTok`.
* Each flow also returns a `Trace` counting its repository lookups, repository
  writes, token generations and outgoing emails, so that claims about "no
  lookup happened" or "exactly one email was sent" are statable.
-/

namespace MonComptePro

/-- Error kinds thrown by the flows. `type_error` models the JavaScript
runtime `TypeError` raised by a property access on `undefined`. -/
inductive Err where
  | invalid_email
  | invalid_credentials
  | email_unavailable
  | weak_password
  | email_verified_already
  | invalid_token
  | invalid_magic_link
  | not_found
  | api_annuaire
  | verification_not_needed
  | invalid_personal_informations
  | type_error
deriving DecidableEq, Repr

/-- An account row of the users table, with one token/timestamp slot per
flow, as read and written by the user manager. -/
structure User where
  id : Nat
  email : String
  encrypted_password : Option String
  email_verified : Bool
  sign_in_count : Nat
  last_sign_in_at : Option Int
  given_name : Option String
  family_name : Option String
  phone_number : Option String
  job : Option String
  verify_email_token : Option String
  verify_email_sent_at : Option Int
  magic_link_token : Option String
  magic_link_sent_at : Option Int
  reset_password_token : Option String
  reset_password_sent_at : Option Int
deriving DecidableEq, Repr

/-- The delegated security services (`../services/security`): their
implementations are outside this code base, so they are parameters. -/
structure Services where
  hashPassword : String → String
  validatePassword : String → Option String → Bool
  isPasswordSecure : String → Bool
  isPhoneNumberValid : Option String → Bool

/-- Side-effect counters accumulated by one flow invocation. -/
structure Trace where
  emailLookups : Nat := 0
  tokenLookups : Nat := 0
  creates : Nat := 0
  updates : Nat := 0
  tokensGenerated : Nat := 0
  emailsSent : Nat := 0
deriving DecidableEq, Repr

/-- Outcome of one flow invocation: the returned value or thrown error, the
database state after the call, and the side-effect counters. -/
structure FlowOut (σ : Type) (α : Type) where
  result : Except Err α
  state : σ
  trace : Trace

/-- `true` on `Except.ok`, `false` on `Except.error`. -/
def isSuccess {α : Type} : Except Err α → Bool
  | .ok _ => true
  | .error _ => false

def RESET_PASSWORD_TOKEN_EXPIRATION_DURATION_IN_MINUTES : Int := 60
def VERIFY_EMAIL_TOKEN_EXPIRATION_DURATION_IN_MINUTES : Int := 60
def MAGIC_LINK_TOKEN_EXPIRATION_DURATION_IN_MINUTES : Int := 10
def OFFICIAL_CONTACT_EMAIL_VERIFICATION_TOKEN_EXPIRATION_DURATION_IN_MINUTES : Int := 60

/-- Embeds `isExpired`: `emittedDate` is `none` when the stored value is
absent or not a `Date` (the `instanceof Date` test fails); otherwise the
emission time in milliseconds. `now` replaces the call to `new Date()`. -/
def isExpired (now : Int) (emittedDate : Option Int)
    (expirationDurationInMinutes : Int) : Bool :=
  match emittedDate with
  | none => true
  | some d => now - d > expirationDurationInMinutes * 60000

/-- Modelled from the spec: the user repository's lookup-by-email (the
repository implementation is not under src). Returns the account whose email
matches, `none` when there is no such account. -/
def findByEmail (db : List User) (email : String) : Option User :=
  db.find? (fun u => u.email == email)

/-- Modelled from the spec: the user repository's lookup by verify-email
token. -/
def findByVerifyEmailToken (db : List User) (token : String) : Option User :=
  db.find? (fun u => u.verify_email_token == some token)

/-- Modelled from the spec: the user repository's lookup by magic-link
token. -/
def findByMagicLinkToken (db : List User) (token : String) : Option User :=
  db.find? (fun u => u.magic_link_token == some token)

/-- Modelled from the spec: the user repository's lookup by reset-password
token. -/
def findByResetPasswordToken (db : List User) (token : String) : Option User :=
  db.find? (fun u => u.reset_password_token == some token)

/-- Modelled from the spec: the user repository's update-by-id, applying the
requested field changes to the matching row. -/
def updateById (db : List User) (id : Nat) (f : User → User) : List User :=
  db.map (fun v => if v.id == id then f v else v)

/-- Modelled from the spec: the user repository's `create`; fields not
supplied default to null / zero. -/
def mkUser (id : Nat) (email : String) (pw : Option String) : User :=
  { id := id, email := email, encrypted_password := pw,
    email_verified := false, sign_in_count := 0, last_sign_in_at := none,
    given_name := none, family_name := none, phone_number := none,
    job := none,
    verify_email_token := none, verify_email_sent_at := none,
    magic_link_token := none, magic_link_sent_at := none,
    reset_password_token := none, reset_password_sent_at := none }

/-- Embeds `login`. -/
def login (s : Services) (now : Int) (db : List User)
    (email password : String) : FlowOut (List User) User :=
  match findByEmail db email with
  | none =>
      { result := .error .invalid_credentials, state := db,
        trace := { emailLookups := 1 } }
  | some user =>
      if !s.validatePassword password user.encrypted_password then
        { result := .error .invalid_credentials, state := db,
          trace := { emailLookups := 1 } }
      else
        let chg := fun (u : User) =>
          { u with sign_in_count := u.sign_in_count + 1,
                   last_sign_in_at := some now }
        { result := .ok (chg user), state := updateById db user.id chg,
          trace := { emailLookups := 1, updates := 1 } }

/-- Embeds `signup`; `newId` is the id the repository assigns on create. -/
def signup (s : Services) (db : List User) (newId : Nat)
    (email password : String) : FlowOut (List User) User :=
  match findByEmail db email with
  | some _ =>
      { result := .error .email_unavailable, state := db,
        trace := { emailLookups := 1 } }
  | none =>
      if !s.isPasswordSecure password then
        { result := .error .weak_password, state := db,
          trace := { emailLookups := 1 } }
      else
        let u := mkUser newId email (some (s.hashPassword password))
        { result := .ok u, state := db ++ [u],
          trace := { emailLookups := 1, creates := 1 } }

/-- Embeds `sendEmailAddressVerificationEmail`; `newTok` is the value
`generatePinToken` would produce. When the account is missing the source
dereferences `user.email_verified` on `undefined`, hence `type_error`. -/
def sendEmailAddressVerificationEmail (now : Int) (db : List User)
    (email : String) (checkBeforeSend : Bool) (newTok : String) :
    FlowOut (List User) Bool :=
  match findByEmail db email with
  | none =>
      { result := .error .type_error, state := db,
        trace := { emailLookups := 1 } }
  | some user =>
      if user.email_verified then
        { result := .error .email_verified_already, state := db,
          trace := { emailLookups := 1 } }
      else if checkBeforeSend &&
          !isExpired now user.verify_email_sent_at
            VERIFY_EMAIL_TOKEN_EXPIRATION_DURATION_IN_MINUTES then
        { result := .ok false, state := db, trace := { emailLookups := 1 } }
      else
        let chg := fun (u : User) =>
          { u with verify_email_token := some newTok,
                   verify_email_sent_at := some now }
        { result := .ok true, state := updateById db user.id chg,
          trace := { emailLookups := 1, tokensGenerated := 1, updates := 1,
                     emailsSent := 1 } }

/-- Embeds `verifyEmail`. Note the source has no empty-token guard here: the
token lookup is performed unconditionally. -/
def verifyEmail (now : Int) (db : List User) (token : String) :
    FlowOut (List User) User :=
  match findByVerifyEmailToken db token with
  | none =>
      { result := .error .invalid_token, state := db,
        trace := { tokenLookups := 1 } }
  | some user =>
      if isExpired now user.verify_email_sent_at
          VERIFY_EMAIL_TOKEN_EXPIRATION_DURATION_IN_MINUTES then
        { result := .error .invalid_token, state := db,
          trace := { tokenLookups := 1 } }
      else
        let chg := fun (u : User) =>
          { u with email_verified := true,
                   verify_email_token := none, verify_email_sent_at := none }
        { result := .ok (chg user), state := updateById db user.id chg,
          trace := { tokenLookups := 1, updates := 1 } }

/-- Embeds `sendSendMagicLinkEmail`: a missing account is created on the fly
(with `newId`), then the magic-link token is stored and mailed. -/
def sendSendMagicLinkEmail (now : Int) (db : List User) (email : String)
    (newId : Nat) (newTok : String) : FlowOut (List User) Bool :=
  let chg := fun (u : User) =>
    { u with magic_link_token := some newTok, magic_link_sent_at := some now }
  match findByEmail db email with
  | some user =>
      { result := .ok true, state := updateById db user.id chg,
        trace := { emailLookups := 1, tokensGenerated := 1, updates := 1,
                   emailsSent := 1 } }
  | none =>
      let user := mkUser newId email none
      { result := .ok true, state := updateById (db ++ [user]) user.id chg,
        trace := { emailLookups := 1, creates := 1, tokensGenerated := 1,
                   updates := 1, emailsSent := 1 } }

/-- Embeds `loginWithMagicLink`, including the guard rejecting the default
empty token value before any lookup. -/
def loginWithMagicLink (now : Int) (db : List User) (token : String) :
    FlowOut (List User) User :=
  if token == "" then
    { result := .error .invalid_magic_link, state := db, trace := {} }
  else
    match findByMagicLinkToken db token with
    | none =>
        { result := .error .invalid_magic_link, state := db,
          trace := { tokenLookups := 1 } }
    | some user =>
        if isExpired now user.magic_link_sent_at
            MAGIC_LINK_TOKEN_EXPIRATION_DURATION_IN_MINUTES then
          { result := .error .invalid_magic_link, state := db,
            trace := { tokenLookups := 1 } }
        else
          let chg := fun (u : User) =>
            { u with email_verified := true,
                     magic_link_token := none, magic_link_sent_at := none }
          { result := .ok (chg user), state := updateById db user.id chg,
            trace := { tokenLookups := 1, updates := 1 } }

/-- Embeds `sendResetPasswordEmail`: a missing account fails silently with a
success-shaped `true` and no further effect. -/
def sendResetPasswordEmail (now : Int) (db : List User) (email : String)
    (newTok : String) : FlowOut (List User) Bool :=
  match findByEmail db email with
  | none =>
      { result := .ok true, state := db, trace := { emailLookups := 1 } }
  | some user =>
      let chg := fun (u : User) =>
        { u with reset_password_token := some newTok,
                 reset_password_sent_at := some now }
      { result := .ok true, state := updateById db user.id chg,
        trace := { emailLookups := 1, tokensGenerated := 1, updates := 1,
                   emailsSent := 1 } }

/-- Embeds `changePassword`, including the guard rejecting the default empty
token value before any lookup. -/
def changePassword (s : Services) (now : Int) (db : List User)
    (token password : String) : FlowOut (List User) User :=
  if token == "" then
    { result := .error .invalid_token, state := db, trace := {} }
  else
    match findByResetPasswordToken db token with
    | none =>
        { result := .error .invalid_token, state := db,
          trace := { tokenLookups := 1 } }
    | some user =>
        if isExpired now user.reset_password_sent_at
            RESET_PASSWORD_TOKEN_EXPIRATION_DURATION_IN_MINUTES then
          { result := .error .invalid_token, state := db,
            trace := { tokenLookups := 1 } }
        else if !s.isPasswordSecure password then
          { result := .error .weak_password, state := db,
            trace := { tokenLookups := 1 } }
        else
          let chg := fun (u : User) =>
            { u with encrypted_password := some (s.hashPassword password),
                     reset_password_token := none,
                     reset_password_sent_at := none }
          { result := .ok (chg user), state := updateById db user.id chg,
            trace := { tokenLookups := 1, updates := 1 } }

/-- Embeds `updatePersonalInformations`: a `none` argument models a
non-string value rejected by `isString`. -/
def updatePersonalInformations (s : Services) (db : List User) (userId : Nat)
    (given_name family_name phone_number job : Option String) :
    FlowOut (List User) (Option User) :=
  if !given_name.isSome || !family_name.isSome || !job.isSome then
    { result := .error .invalid_personal_informations, state := db,
      trace := {} }
  else if !s.isPhoneNumberValid phone_number then
    { result := .error .invalid_personal_informations, state := db,
      trace := {} }
  else
    let chg := fun (u : User) =>
      { u with given_name := given_name, family_name := family_name,
               phone_number := phone_number, job := job }
    { result := .ok ((db.find? (fun u => u.id == userId)).map chg),
      state := updateById db userId chg, trace := { updates := 1 } }

/-- A row of `getUsers`: a user of the organization joined with the
user-organization-link fields; `id` is the user's id. -/
structure UserOrganizationLink where
  id : Nat
  organization_id : Nat
  email : String
  given_name : Option String
  family_name : Option String
  needs_official_contact_email_verification : Bool
  official_contact_email_verification_token : Option String
  official_contact_email_verification_sent_at : Option Int
deriving DecidableEq, Repr

/-- An organization row, restricted to the fields the flows read. -/
structure Organization where
  id : Nat
  cached_code_officiel_geographique : String
  cached_libelle : Option String
deriving DecidableEq, Repr

/-- Modelled from the spec: the organization repository's `getUsers`,
returning the users of the organization with their link fields. -/
def getUsers (odb : List UserOrganizationLink) (organization_id : Nat) :
    List UserOrganizationLink :=
  odb.filter (fun l => l.organization_id == organization_id)

/-- Modelled from the spec: the organization repository's `findById`. -/
def findOrganizationById (orgs : List Organization) (id : Nat) :
    Option Organization :=
  orgs.find? (fun o => o.id == id)

/-- Modelled from the spec: `updateUserOrganizationLink`, applying the
requested field changes to the link of the given user and organization. -/
def updateUserOrganizationLink (odb : List UserOrganizationLink)
    (organization_id user_id : Nat)
    (f : UserOrganizationLink → UserOrganizationLink) :
    List UserOrganizationLink :=
  odb.map (fun l =>
    if l.organization_id == organization_id && l.id == user_id then f l else l)

/-- Return value of `sendOfficialContactEmailVerificationEmail`. -/
structure ContactEmailOut where
  codeSent : Bool
  contactEmail : String
  libelle : Option String
deriving DecidableEq, Repr

/-- Embeds `sendOfficialContactEmailVerificationEmail`; `contactEmailResult`
is the outcome of the `getContactEmail` connector call (an exception becomes
`ApiAnnuaireError`), `newTok` the value `generateDicewarePassword` would
produce. -/
def sendOfficialContactEmailVerificationEmail (now : Int)
    (odb : List UserOrganizationLink) (orgs : List Organization)
    (contactEmailResult : Except Unit String)
    (user_id organization_id : Nat) (checkBeforeSend : Bool) (newTok : String) :
    FlowOut (List UserOrganizationLink) ContactEmailOut :=
  match (getUsers odb organization_id).find? (fun u => u.id == user_id),
        findOrganizationById orgs organization_id with
  | some user, some organization =>
      if !user.needs_official_contact_email_verification then
        { result := .error .verification_not_needed, state := odb,
          trace := { emailLookups := 1 } }
      else
        match contactEmailResult with
        | .error _ =>
            { result := .error .api_annuaire, state := odb,
              trace := { emailLookups := 1 } }
        | .ok contactEmail =>
            if checkBeforeSend &&
                !isExpired now user.official_contact_email_verification_sent_at
                  OFFICIAL_CONTACT_EMAIL_VERIFICATION_TOKEN_EXPIRATION_DURATION_IN_MINUTES then
              { result := .ok { codeSent := false, contactEmail := contactEmail,
                                libelle := organization.cached_libelle },
                state := odb, trace := { emailLookups := 1 } }
            else
              let chg := fun (l : UserOrganizationLink) =>
                { l with official_contact_email_verification_token := some newTok,
                         official_contact_email_verification_sent_at := some now }
              { result := .ok { codeSent := true, contactEmail := contactEmail,
                                libelle := organization.cached_libelle },
                state := updateUserOrganizationLink odb organization_id user_id chg,
                trace := { emailLookups := 1, tokensGenerated := 1, updates := 1,
                           emailsSent := 1 } }
  | _, _ =>
      { result := .error .not_found, state := odb,
        trace := { emailLookups := 1 } }

/-- Embeds `verifyOfficialContactEmailToken`: the supplied token is compared
(strictly) with the stored one after the user/organization lookups. -/
def verifyOfficialContactEmailToken (now : Int)
    (odb : List UserOrganizationLink) (orgs : List Organization)
    (user_id organization_id : Nat) (token : String) :
    FlowOut (List UserOrganizationLink) UserOrganizationLink :=
  match (getUsers odb organization_id).find? (fun u => u.id == user_id),
        findOrganizationById orgs organization_id with
  | some user, some _ =>
      if user.official_contact_email_verification_token != some token then
        { result := .error .invalid_token, state := odb,
          trace := { emailLookups := 1 } }
      else if isExpired now user.official_contact_email_verification_sent_at
          OFFICIAL_CONTACT_EMAIL_VERIFICATION_TOKEN_EXPIRATION_DURATION_IN_MINUTES then
        { result := .error .invalid_token, state := odb,
          trace := { emailLookups := 1 } }
      else
        let chg := fun (l : UserOrganizationLink) =>
          { l with needs_official_contact_email_verification := false,
                   official_contact_email_verification_token := none,
                   official_contact_email_verification_sent_at := none }
        { result := .ok (chg user),
          state := updateUserOrganizationLink odb organization_id user_id chg,
          trace := { emailLookups := 1, updates := 1 } }
  | _, _ =>
      { result := .error .not_found, state := odb,
        trace := { emailLookups := 1 } }

/-- The token/timestamp pairing invariant on an account: each token field is
null exactly when its paired issuance timestamp is null. -/
def pairInv (u : User) : Prop :=
  (u.verify_email_token = none ↔ u.verify_email_sent_at = none) ∧
  (u.magic_link_token = none ↔ u.magic_link_sent_at = none) ∧
  (u.reset_password_token = none ↔ u.reset_password_sent_at = none)

instance (u : User) : Decidable (pairInv u) := by
  unfold pairInv; infer_instance

/-- The token/timestamp pairing invariant on a user-organization link. -/
def linkInv (l : UserOrganizationLink) : Prop :=
  l.official_contact_email_verification_token = none ↔
    l.official_contact_email_verification_sent_at = none

instance (l : UserOrganizationLink) : Decidable (linkInv l) := by
  unfold linkInv; infer_instance

/-- One invocation of an account-writing operation of the user manager, with
its inputs (`now`, and the repository- or generator-supplied values). -/
inductive UserOp where
  | opLogin (now : Int) (email password : String)
  | opSignup (newId : Nat) (email password : String)
  | opSendVerify (now : Int) (email : String) (checkBeforeSend : Bool)
      (newTok : String)
  | opVerifyEmail (now : Int) (token : String)
  | opSendMagic (now : Int) (email : String) (newId : Nat) (newTok : String)
  | opLoginMagic (now : Int) (token : String)
  | opSendReset (now : Int) (email : String) (newTok : String)
  | opChangePassword (now : Int) (token password : String)
  | opUpdatePersonal (userId : Nat) (g f p j : Option String)
deriving Repr

/-- The users-table state reached by running one operation (the returned
value and trace are dropped). -/
def stepUser (s : Services) (db : List User) : UserOp → List User
  | .opLogin now e p => (login s now db e p).state
  | .opSignup i e p => (signup s db i e p).state
  | .opSendVerify now e c t => (sendEmailAddressVerificationEmail now db e c t).state
  | .opVerifyEmail now t => (verifyEmail now db t).state
  | .opSendMagic now e i t => (sendSendMagicLinkEmail now db e i t).state
  | .opLoginMagic now t => (loginWithMagicLink now db t).state
  | .opSendReset now e t => (sendResetPasswordEmail now db e t).state
  | .opChangePassword now t p => (changePassword s now db t p).state
  | .opUpdatePersonal i g f p j => (updatePersonalInformations s db i g f p j).state

/-- One invocation of a link-writing operation of the
official-contact-email-verification manager. -/
inductive OrgOp where
  | opSendOfficial (now : Int) (contactEmailResult : Except Unit String)
      (user_id organization_id : Nat) (checkBeforeSend : Bool) (newTok : String)
  | opVerifyOfficial (now : Int) (user_id organization_id : Nat) (token : String)

/-- The link-table state reached by running one organization operation. -/
def stepOrg (orgs : List Organization) (odb : List UserOrganizationLink) :
    OrgOp → List UserOrganizationLink
  | .opSendOfficial now ce u o c t =>
      (sendOfficialContactEmailVerificationEmail now odb orgs ce u o c t).state
  | .opVerifyOfficial now u o t =>
      (verifyOfficialContactEmailToken now odb orgs u o t).state

theorem pairInv_updateById {db : List User} {id : Nat} {f : User → User}
    (hf : ∀ u, pairInv u → pairInv (f u)) (h : ∀ u ∈ db, pairInv u) :
    ∀ u ∈ updateById db id f, pairInv u := by
  intro u hu
  simp only [updateById, List.mem_map] at hu
  obtain ⟨v, hv, rfl⟩ := hu
  split
  · exact hf v (h v hv)
  · exact h v hv

theorem pairInv_mkUser (i : Nat) (e : String) (p : Option String) :
    pairInv (mkUser i e p) := by
  simp [pairInv, mkUser]

theorem stepUser_pairInv (s : Services) (db : List User) (op : UserOp)
    (h : ∀ u ∈ db, pairInv u) : ∀ u ∈ stepUser s db op, pairInv u := by
  have happ : ∀ (i : Nat) (e : String) (pw : Option String),
      ∀ u ∈ db ++ [mkUser i e pw], pairInv u := by
    intro i e pw u hu
    rcases List.mem_append.mp hu with h1 | h1
    · exact h u h1
    · rcases List.mem_singleton.mp h1 with rfl
      exact pairInv_mkUser i e pw
  cases op with
  | opLogin now e p =>
      simp only [stepUser, login]
      split
      · exact h
      · split
        · exact h
        · exact pairInv_updateById (fun u hu => hu) h
  | opSignup i e p =>
      simp only [stepUser, signup]
      split
      · exact h
      · split
        · exact h
        · exact happ i e (some (s.hashPassword p))
  | opSendVerify now e c t =>
      simp only [stepUser, sendEmailAddressVerificationEmail]
      split
      · exact h
      · split
        · exact h
        · split
          · exact h
          · refine pairInv_updateById (fun u hu => ?_) h
            simp only [pairInv] at hu ⊢
            simp only [reduceCtorEq, iff_false, false_iff]
            tauto
  | opVerifyEmail now t =>
      simp only [stepUser, verifyEmail]
      split
      · exact h
      · split
        · exact h
        · refine pairInv_updateById (fun u hu => ?_) h
          simp only [pairInv] at hu ⊢
          tauto
  | opSendMagic now e i t =>
      simp only [stepUser, sendSendMagicLinkEmail]
      have hset : ∀ u, pairInv u →
          pairInv { u with magic_link_token := some t,
                           magic_link_sent_at := some now } := by
        intro u hu
        simp only [pairInv] at hu ⊢
        simp only [reduceCtorEq, iff_false, false_iff]
        tauto
      split
      · exact pairInv_updateById hset h
      · exact pairInv_updateById hset (happ i e none)
  | opLoginMagic now t =>
      simp only [stepUser, loginWithMagicLink]
      split
      · exact h
      · split
        · exact h
        · split
          · exact h
          · refine pairInv_updateById (fun u hu => ?_) h
            simp only [pairInv] at hu ⊢
            tauto
  | opSendReset now e t =>
      simp only [stepUser, sendResetPasswordEmail]
      split
      · exact h
      · refine pairInv_updateById (fun u hu => ?_) h
        simp only [pairInv] at hu ⊢
        simp only [reduceCtorEq, iff_false, false_iff]
        tauto
  | opChangePassword now t p =>
      simp only [stepUser, changePassword]
      split
      · exact h
      · split
        · exact h
        · split
          · exact h
          · split
            · exact h
            · refine pairInv_updateById (fun u hu => ?_) h
              simp only [pairInv] at hu ⊢
              tauto
  | opUpdatePersonal i g f p j =>
      simp only [stepUser, updatePersonalInformations]
      split
      · exact h
      · split
        · exact h
        · exact pairInv_updateById (fun u hu => hu) h

theorem linkInv_updateLink {odb : List UserOrganizationLink} {oid uid : Nat}
    {f : UserOrganizationLink → UserOrganizationLink}
    (hf : ∀ l, linkInv l → linkInv (f l)) (h : ∀ l ∈ odb, linkInv l) :
    ∀ l ∈ updateUserOrganizationLink odb oid uid f, linkInv l := by
  intro l hl
  simp only [updateUserOrganizationLink, List.mem_map] at hl
  obtain ⟨v, hv, rfl⟩ := hl
  split
  · exact hf v (h v hv)
  · exact h v hv

theorem stepOrg_linkInv (orgs : List Organization)
    (odb : List UserOrganizationLink) (op : OrgOp)
    (h : ∀ l ∈ odb, linkInv l) : ∀ l ∈ stepOrg orgs odb op, linkInv l := by
  cases op with
  | opSendOfficial now ce u o c t =>
      simp only [stepOrg, sendOfficialContactEmailVerificationEmail]
      split
      · split
        · exact h
        · split
          · exact h
          · split
            · exact h
            · exact linkInv_updateLink (fun l hl => by simp [linkInv]) h
      · exact h
  | opVerifyOfficial now u o t =>
      simp only [stepOrg, verifyOfficialContactEmailToken]
      split
      · split
        · exact h
        · split
          · exact h
          · exact linkInv_updateLink (fun l hl => by simp [linkInv]) h
      · exact h

theorem foldl_stepUser_pairInv (s : Services) (ops : List UserOp) :
    ∀ db : List User, (∀ u ∈ db, pairInv u) →
      ∀ u ∈ ops.foldl (stepUser s) db, pairInv u := by
  induction ops with
  | nil => intro db hdb; exact hdb
  | cons op ops ih => intro db hdb; exact ih _ (stepUser_pairInv s db op hdb)

theorem foldl_stepOrg_linkInv (orgs : List Organization) (oops : List OrgOp) :
    ∀ odb : List UserOrganizationLink, (∀ l ∈ odb, linkInv l) →
      ∀ l ∈ oops.foldl (stepOrg orgs) odb, linkInv l := by
  induction oops with
  | nil => intro odb hodb; exact hodb
  | cons op oops ih => intro odb hodb; exact ih _ (stepOrg_linkInv orgs odb op hodb)

/-! Concrete services and records used when instantiating the theorems. -/

/-- Concrete delegated services: hashing prefixes an `H`, verification
recomputes the hash, a password is secure from ten characters on, a phone
number is valid when present. -/
def sv : Services :=
  { hashPassword := fun p => "H" ++ p,
    validatePassword := fun p h => h == some ("H" ++ p),
    isPasswordSecure := fun p => 10 ≤ p.length,
    isPhoneNumberValid := fun p => p.isSome }

/-- An account with a password and no outstanding token. -/
def u1 : User :=
  { mkUser 1 "a@ex.fr" (some "Hsecretpass") with sign_in_count := 3 }

/-- An account with an outstanding verify-email token issued at time 50. -/
def u2 : User :=
  { mkUser 2 "b@ex.fr" none with
      verify_email_token := some "vtok", verify_email_sent_at := some 50 }

/-- An account with an outstanding magic-link token issued at time 50. -/
def u3 : User :=
  { mkUser 3 "c@ex.fr" none with
      magic_link_token := some "mtok", magic_link_sent_at := some 50 }

/-- An account with an outstanding reset-password token issued at time 50. -/
def u4 : User :=
  { mkUser 4 "d@ex.fr" (some "Hold") with
      reset_password_token := some "rtok", reset_password_sent_at := some 50 }

/-- A user-organization link awaiting official-contact-email verification,
with a token issued at time 50. -/
def l1 : UserOrganizationLink :=
  { id := 10, organization_id := 20, email := "e@ex.fr",
    given_name := some "Ana", family_name := some "Blanc",
    needs_official_contact_email_verification := true,
    official_contact_email_verification_token := some "otok",
    official_contact_email_verification_sent_at := some 50 }

/-- The organization of `l1`. -/
def o1 : Organization :=
  { id := 20, cached_code_officiel_geographique := "75056",
    cached_libelle := some "Paris" }

/-! Claim theorems. -/

/-- C4: `isExpired` returns `true` when the emitted date is absent or not a
`Date` (modelled as `none`), and otherwise returns `true` exactly when the
current time minus the emission time strictly exceeds the duration converted
to milliseconds; purity holds by construction, the clock being an explicit
argument. -/
theorem c4_isExpired_spec (now t d : Int) :
    isExpired now none d = true ∧
    (isExpired now (some t) d = true ↔ now - t > d * 60000) := by
  refine ⟨rfl, ?_⟩
  simp [isExpired]

/-- C5: `login` succeeds exactly when the account exists and the supplied
password verifies against the stored hash, in which case it performs one
update incrementing `sign_in_count` and setting `last_sign_in_at`; both the
missing-account case and the wrong-password case throw the same
`invalid_credentials` error. -/
theorem c5_login_spec (s : Services) (now : Int) (db : List User)
    (email password : String) :
    (isSuccess (login s now db email password).result = true ↔
      ∃ user, findByEmail db email = some user ∧
        s.validatePassword password user.encrypted_password = true) ∧
    (∀ user, findByEmail db email = some user →
      s.validatePassword password user.encrypted_password = true →
      (login s now db email password).result =
        .ok { user with sign_in_count := user.sign_in_count + 1,
                        last_sign_in_at := some now } ∧
      (login s now db email password).trace.updates = 1) ∧
    (isSuccess (login s now db email password).result = false →
      (login s now db email password).result = .error .invalid_credentials) := by
  rcases hf : findByEmail db email with _ | user
  · simp [login, hf, isSuccess]
  · rcases hv : s.validatePassword password user.encrypted_password
    · simp [login, hf, hv, isSuccess]
    · simp [login, hf, hv, isSuccess]

/-- Witness instantiating `c5_login_spec` on a concrete account. -/
theorem c5_login_witness :
    (login sv 5 [u1] "a@ex.fr" "secretpass").result =
      .ok { u1 with sign_in_count := u1.sign_in_count + 1,
                    last_sign_in_at := some 5 } ∧
    (login sv 5 [u1] "a@ex.fr" "secretpass").trace.updates = 1 :=
  (c5_login_spec sv 5 [u1] "a@ex.fr" "secretpass").2.1 u1 (by decide) (by decide)

/-- C6: for an unknown email, `sendResetPasswordEmail` returns the
success-shaped `true`, leaves the database unchanged, sends no email and
performs no write, so the caller cannot distinguish a non-existent
account. -/
theorem c6_reset_silent_on_missing (now : Int) (db : List User)
    (email newTok : String) (h : findByEmail db email = none) :
    (sendResetPasswordEmail now db email newTok).result = .ok true ∧
    (sendResetPasswordEmail now db email newTok).state = db ∧
    (sendResetPasswordEmail now db email newTok).trace.emailsSent = 0 ∧
    (sendResetPasswordEmail now db email newTok).trace.updates = 0 := by
  simp [sendResetPasswordEmail, h]

/-- Witness instantiating `c6_reset_silent_on_missing` on an unknown
email. -/
theorem c6_reset_silent_witness :
    (sendResetPasswordEmail 0 [u1] "zz@ex.fr" "t").result = .ok true ∧
    (sendResetPasswordEmail 0 [u1] "zz@ex.fr" "t").state = [u1] ∧
    (sendResetPasswordEmail 0 [u1] "zz@ex.fr" "t").trace.emailsSent = 0 ∧
    (sendResetPasswordEmail 0 [u1] "zz@ex.fr" "t").trace.updates = 0 :=
  c6_reset_silent_on_missing 0 [u1] "zz@ex.fr" "t" (by decide)

/-- C9: `signup` throws `email_unavailable` whenever the email is taken,
for any password, so the availability check has priority over the strength
check; it throws `weak_password` when the email is free but the password is
weak, and creates the account exactly when both checks pass. -/
theorem c9_signup_spec (s : Services) (db : List User) (newId : Nat)
    (email password : String) :
    (∀ user, findByEmail db email = some user →
      (signup s db newId email password).result = .error .email_unavailable ∧
      (signup s db newId email password).state = db) ∧
    (findByEmail db email = none → s.isPasswordSecure password = false →
      (signup s db newId email password).result = .error .weak_password ∧
      (signup s db newId email password).state = db) ∧
    (findByEmail db email = none → s.isPasswordSecure password = true →
      (signup s db newId email password).result =
        .ok (mkUser newId email (some (s.hashPassword password))) ∧
      (signup s db newId email password).state =
        db ++ [mkUser newId email (some (s.hashPassword password))]) := by
  rcases hf : findByEmail db email with _ | user
  · rcases hp : s.isPasswordSecure password
    · simp [signup, hf, hp]
    · simp [signup, hf, hp]
  · simp [signup, hf]

/-- Witness instantiating each branch of `c9_signup_spec`: taken email with
a weak password, free email with a weak password, free email with a strong
password. -/
theorem c9_signup_witness :
    (signup sv [u1] 9 "a@ex.fr" "shrt").result = .error .email_unavailable ∧
    (signup sv [u1] 9 "f@ex.fr" "shrt").result = .error .weak_password ∧
    (signup sv [u1] 9 "f@ex.fr" "longenoughpw").result =
      .ok (mkUser 9 "f@ex.fr" (some (sv.hashPassword "longenoughpw"))) :=
  ⟨((c9_signup_spec sv [u1] 9 "a@ex.fr" "shrt").1 u1 (by decide)).1,
   ((c9_signup_spec sv [u1] 9 "f@ex.fr" "shrt").2.1 (by decide) (by decide)).1,
   ((c9_signup_spec sv [u1] 9 "f@ex.fr" "longenoughpw").2.2
      (by decide) (by decide)).1⟩

/-- C10: `changePassword` validates the token before the password strength:
an unknown or expired token yields `invalid_token` whatever the password,
and with a valid token and a weak password it throws `weak_password` while
leaving the database — hence the stored reset token and its timestamp —
unchanged, so the same token can be retried with a stronger password. -/
theorem c10_changePassword_weak_keeps_token (s : Services) (now : Int)
    (db : List User) (token password : String) :
    (findByResetPasswordToken db token = none →
      (changePassword s now db token password).result =
        .error .invalid_token) ∧
    (∀ user, token ≠ "" → findByResetPasswordToken db token = some user →
      isExpired now user.reset_password_sent_at
        RESET_PASSWORD_TOKEN_EXPIRATION_DURATION_IN_MINUTES = true →
      (changePassword s now db token password).result =
        .error .invalid_token) ∧
    (∀ user, token ≠ "" → findByResetPasswordToken db token = some user →
      isExpired now user.reset_password_sent_at
        RESET_PASSWORD_TOKEN_EXPIRATION_DURATION_IN_MINUTES = false →
      s.isPasswordSecure password = false →
      (changePassword s now db token password).result =
        .error .weak_password ∧
      (changePassword s now db token password).state = db ∧
      (changePassword s now db token password).trace.updates = 0) := by
  by_cases ht : token = ""
  · subst ht
    simp [changePassword]
  · rcases hf : findByResetPasswordToken db token with _ | user
    · simp [changePassword, ht, hf]
    · rcases he : isExpired now user.reset_password_sent_at
          RESET_PASSWORD_TOKEN_EXPIRATION_DURATION_IN_MINUTES
      · rcases hp : s.isPasswordSecure password
        · simp [changePassword, ht, hf, he, hp]
        · simp [changePassword, ht, hf, he, hp]
      · simp [changePassword, ht, hf, he]

/-- Witness instantiating `c10_changePassword_weak_keeps_token`: a valid
reset token with a weak password, plus the unknown-token branch. -/
theorem c10_changePassword_weak_witness :
    ((changePassword sv 100 [u4] "rtok" "shrt").result =
        .error .weak_password ∧
      (changePassword sv 100 [u4] "rtok" "shrt").state = [u4] ∧
      (changePassword sv 100 [u4] "rtok" "shrt").trace.updates = 0) ∧
    (changePassword sv 100 [u4] "nope" "shrt").result = .error .invalid_token :=
  ⟨(c10_changePassword_weak_keeps_token sv 100 [u4] "rtok" "shrt").2.2 u4
      (by decide) (by decide) (by decide) (by decide),
   (c10_changePassword_weak_keeps_token sv 100 [u4] "nope" "shrt").1
      (by decide)⟩

/-- C1: in each consume-token flow, an unmatched token and a matched but
expired token signal that flow's single invalid-token error kind, and a
matched, non-expired token succeeds with exactly one update that applies the
success mutation and sets the token and its paired timestamp to null
together. -/
theorem c1_consume_token_spec (s : Services) (now : Int) (db : List User)
    (token password : String) (odb : List UserOrganizationLink)
    (orgs : List Organization) (user_id organization_id : Nat) :
    (findByVerifyEmailToken db token = none →
      (verifyEmail now db token).result = .error .invalid_token) ∧
    (∀ user, findByVerifyEmailToken db token = some user →
      isExpired now user.verify_email_sent_at
        VERIFY_EMAIL_TOKEN_EXPIRATION_DURATION_IN_MINUTES = true →
      (verifyEmail now db token).result = .error .invalid_token) ∧
    (∀ user, findByVerifyEmailToken db token = some user →
      isExpired now user.verify_email_sent_at
        VERIFY_EMAIL_TOKEN_EXPIRATION_DURATION_IN_MINUTES = false →
      (verifyEmail now db token).result =
        .ok { user with email_verified := true, verify_email_token := none,
                        verify_email_sent_at := none } ∧
      (verifyEmail now db token).state =
        updateById db user.id (fun u =>
          { u with email_verified := true, verify_email_token := none,
                   verify_email_sent_at := none }) ∧
      (verifyEmail now db token).trace.updates = 1) ∧
    (findByMagicLinkToken db token = none →
      (loginWithMagicLink now db token).result = .error .invalid_magic_link) ∧
    (∀ user, token ≠ "" → findByMagicLinkToken db token = some user →
      isExpired now user.magic_link_sent_at
        MAGIC_LINK_TOKEN_EXPIRATION_DURATION_IN_MINUTES = true →
      (loginWithMagicLink now db token).result = .error .invalid_magic_link) ∧
    (∀ user, token ≠ "" → findByMagicLinkToken db token = some user →
      isExpired now user.magic_link_sent_at
        MAGIC_LINK_TOKEN_EXPIRATION_DURATION_IN_MINUTES = false →
      (loginWithMagicLink now db token).result =
        .ok { user with email_verified := true, magic_link_token := none,
                        magic_link_sent_at := none } ∧
      (loginWithMagicLink now db token).state =
        updateById db user.id (fun u =>
          { u with email_verified := true, magic_link_token := none,
                   magic_link_sent_at := none }) ∧
      (loginWithMagicLink now db token).trace.updates = 1) ∧
    (findByResetPasswordToken db token = none →
      (changePassword s now db token password).result =
        .error .invalid_token) ∧
    (∀ user, token ≠ "" → findByResetPasswordToken db token = some user →
      isExpired now user.reset_password_sent_at
        RESET_PASSWORD_TOKEN_EXPIRATION_DURATION_IN_MINUTES = true →
      (changePassword s now db token password).result =
        .error .invalid_token) ∧
    (∀ user, token ≠ "" → findByResetPasswordToken db token = some user →
      isExpired now user.reset_password_sent_at
        RESET_PASSWORD_TOKEN_EXPIRATION_DURATION_IN_MINUTES = false →
      s.isPasswordSecure password = true →
      (changePassword s now db token password).result =
        .ok { user with encrypted_password := some (s.hashPassword password),
                        reset_password_token := none,
                        reset_password_sent_at := none } ∧
      (changePassword s now db token password).state =
        updateById db user.id (fun u =>
          { u with encrypted_password := some (s.hashPassword password),
                   reset_password_token := none,
                   reset_password_sent_at := none }) ∧
      (changePassword s now db token password).trace.updates = 1) ∧
    (∀ user org,
      (getUsers odb organization_id).find? (fun u => u.id == user_id) =
        some user →
      findOrganizationById orgs organization_id = some org →
      user.official_contact_email_verification_token ≠ some token →
      (verifyOfficialContactEmailToken now odb orgs user_id organization_id
        token).result = .error .invalid_token) ∧
    (∀ user org,
      (getUsers odb organization_id).find? (fun u => u.id == user_id) =
        some user →
      findOrganizationById orgs organization_id = some org →
      user.official_contact_email_verification_token = some token →
      isExpired now user.official_contact_email_verification_sent_at
        OFFICIAL_CONTACT_EMAIL_VERIFICATION_TOKEN_EXPIRATION_DURATION_IN_MINUTES
        = true →
      (verifyOfficialContactEmailToken now odb orgs user_id organization_id
        token).result = .error .invalid_token) ∧
    (∀ user org,
      (getUsers odb organization_id).find? (fun u => u.id == user_id) =
        some user →
      findOrganizationById orgs organization_id = some org →
      user.official_contact_email_verification_token = some token →
      isExpired now user.official_contact_email_verification_sent_at
        OFFICIAL_CONTACT_EMAIL_VERIFICATION_TOKEN_EXPIRATION_DURATION_IN_MINUTES
        = false →
      (verifyOfficialContactEmailToken now odb orgs user_id organization_id
        token).result =
        .ok { user with needs_official_contact_email_verification := false,
                        official_contact_email_verification_token := none,
                        official_contact_email_verification_sent_at := none } ∧
      (verifyOfficialContactEmailToken now odb orgs user_id organization_id
        token).state =
        updateUserOrganizationLink odb organization_id user_id (fun l =>
          { l with needs_official_contact_email_verification := false,
                   official_contact_email_verification_token := none,
                   official_contact_email_verification_sent_at := none }) ∧
      (verifyOfficialContactEmailToken now odb orgs user_id organization_id
        token).trace.updates = 1) := by
  refine ⟨?_, ?_, ?_, ?_, ?_, ?_, ?_, ?_, ?_, ?_, ?_, ?_⟩
  · intro h
    simp [verifyEmail, h]
  · intro user hu he
    simp [verifyEmail, hu, he]
  · intro user hu he
    simp [verifyEmail, hu, he]
  · intro h
    by_cases ht : token = ""
    · simp [loginWithMagicLink, ht]
    · simp [loginWithMagicLink, ht, h]
  · intro user ht hu he
    simp [loginWithMagicLink, ht, hu, he]
  · intro user ht hu he
    simp [loginWithMagicLink, ht, hu, he]
  · intro h
    by_cases ht : token = ""
    · simp [changePassword, ht]
    · simp [changePassword, ht, h]
  · intro user ht hu he
    simp [changePassword, ht, hu, he]
  · intro user ht hu he hp
    simp [changePassword, ht, hu, he, hp]
  · intro user org hu ho hne
    simp [verifyOfficialContactEmailToken, hu, ho, hne]
  · intro user org hu ho heq he
    simp [verifyOfficialContactEmailToken, hu, ho, heq, he]
  · intro user org hu ho heq he
    simp [verifyOfficialContactEmailToken, hu, ho, heq, he]

/-- Witness instantiating every branch of `c1_consume_token_spec`: for each
flow, an unmatched token, a matched but expired token, and a matched,
non-expired token on concrete records. -/
theorem c1_consume_token_witness :
    (verifyEmail 100 [u2] "xx").result = .error .invalid_token ∧
    (verifyEmail 4000000 [u2] "vtok").result = .error .invalid_token ∧
    (verifyEmail 100 [u2] "vtok").result =
      .ok { u2 with email_verified := true, verify_email_token := none,
                    verify_email_sent_at := none } ∧
    (loginWithMagicLink 100 [u3] "xx").result = .error .invalid_magic_link ∧
    (loginWithMagicLink 700051 [u3] "mtok").result =
      .error .invalid_magic_link ∧
    (loginWithMagicLink 100 [u3] "mtok").result =
      .ok { u3 with email_verified := true, magic_link_token := none,
                    magic_link_sent_at := none } ∧
    (changePassword sv 100 [u4] "xx" "longenoughpw").result =
      .error .invalid_token ∧
    (changePassword sv 4000000 [u4] "rtok" "longenoughpw").result =
      .error .invalid_token ∧
    (changePassword sv 100 [u4] "rtok" "longenoughpw").result =
      .ok { u4 with encrypted_password := some (sv.hashPassword "longenoughpw"),
                    reset_password_token := none,
                    reset_password_sent_at := none } ∧
    (verifyOfficialContactEmailToken 100 [l1] [o1] 10 20 "bad").result =
      .error .invalid_token ∧
    (verifyOfficialContactEmailToken 4000000 [l1] [o1] 10 20 "otok").result =
      .error .invalid_token ∧
    (verifyOfficialContactEmailToken 100 [l1] [o1] 10 20 "otok").result =
      .ok { l1 with needs_official_contact_email_verification := false,
                    official_contact_email_verification_token := none,
                    official_contact_email_verification_sent_at := none } :=
  ⟨(c1_consume_token_spec sv 100 [u2] "xx" "p" [] [] 0 0).1 (by decide),
   (c1_consume_token_spec sv 4000000 [u2] "vtok" "p" [] [] 0 0).2.1 u2
     (by decide) (by decide),
   ((c1_consume_token_spec sv 100 [u2] "vtok" "p" [] [] 0 0).2.2.1 u2
     (by decide) (by decide)).1,
   (c1_consume_token_spec sv 100 [u3] "xx" "p" [] [] 0 0).2.2.2.1 (by decide),
   (c1_consume_token_spec sv 700051 [u3] "mtok" "p" [] [] 0 0).2.2.2.2.1 u3
     (by decide) (by decide) (by decide),
   ((c1_consume_token_spec sv 100 [u3] "mtok" "p" [] [] 0 0).2.2.2.2.2.1 u3
     (by decide) (by decide) (by decide)).1,
   (c1_consume_token_spec sv 100 [u4] "xx" "longenoughpw" [] [] 0
     0).2.2.2.2.2.2.1 (by decide),
   (c1_consume_token_spec sv 4000000 [u4] "rtok" "longenoughpw" [] [] 0
     0).2.2.2.2.2.2.2.1 u4 (by decide) (by decide) (by decide),
   ((c1_consume_token_spec sv 100 [u4] "rtok" "longenoughpw" [] [] 0
     0).2.2.2.2.2.2.2.2.1 u4 (by decide) (by decide) (by decide)
     (by decide)).1,
   (c1_consume_token_spec sv 100 [] "bad" "p" [l1] [o1] 10
     20).2.2.2.2.2.2.2.2.2.1 l1 o1 (by decide) (by decide) (by decide),
   (c1_consume_token_spec sv 4000000 [] "otok" "p" [l1] [o1] 10
     20).2.2.2.2.2.2.2.2.2.2.1 l1 o1 (by decide) (by decide) (by decide)
     (by decide),
   ((c1_consume_token_spec sv 100 [] "otok" "p" [l1] [o1] 10
     20).2.2.2.2.2.2.2.2.2.2.2 l1 o1 (by decide) (by decide) (by decide)
     (by decide)).1⟩

/-- C2 counterexample: `verifyEmail` called with the empty token still
performs a repository token lookup (the trace records one), so the claim
that every consume-token flow rejects an empty token without performing any
repository lookup fails on `verifyEmail`. -/
theorem c2_empty_token_counterexample :
    (verifyEmail 0 [] "").trace.tokenLookups = 1 ∧
    (verifyEmail 0 [] "").result = .error .invalid_token :=
  ⟨rfl, rfl⟩

/-- C2 amended: `loginWithMagicLink` and `changePassword` reject an empty
token outright, signaling that flow's invalid-token error with no repository
lookup and no state change; `verifyEmail` instead performs its token lookup
even for an empty token; `verifyOfficialContactEmailToken` performs its id
lookups unconditionally and rejects an empty token whenever the stored token
differs from the empty string, in particular when it is null. -/
theorem c2_empty_token_amended (s : Services) (now : Int) (db : List User)
    (password : String) (odb : List UserOrganizationLink)
    (orgs : List Organization) (user_id organization_id : Nat) :
    (loginWithMagicLink now db "").result = .error .invalid_magic_link ∧
    (loginWithMagicLink now db "").trace.tokenLookups = 0 ∧
    (loginWithMagicLink now db "").state = db ∧
    (changePassword s now db "" password).result = .error .invalid_token ∧
    (changePassword s now db "" password).trace.tokenLookups = 0 ∧
    (changePassword s now db "" password).state = db ∧
    (verifyEmail now db "").trace.tokenLookups = 1 ∧
    (∀ user org,
      (getUsers odb organization_id).find? (fun u => u.id == user_id) =
        some user →
      findOrganizationById orgs organization_id = some org →
      user.official_contact_email_verification_token ≠ some "" →
      (verifyOfficialContactEmailToken now odb orgs user_id organization_id
        "").result = .error .invalid_token) := by
  refine ⟨rfl, rfl, rfl, rfl, rfl, rfl, ?_, ?_⟩
  · rcases h : findByVerifyEmailToken db "" with _ | user
    · simp [verifyEmail, h]
    · simp only [verifyEmail, h]
      split <;> rfl
  · intro user org hu ho hne
    simp [verifyOfficialContactEmailToken, hu, ho, hne]

/-- Witness instantiating `c2_empty_token_amended` on concrete records. -/
theorem c2_empty_token_witness :
    (loginWithMagicLink 0 [u3] "").result = .error .invalid_magic_link ∧
    (changePassword sv 0 [u4] "" "longenoughpw").result =
      .error .invalid_token ∧
    (verifyEmail 0 [u2] "").trace.tokenLookups = 1 ∧
    (verifyOfficialContactEmailToken 0 [l1] [o1] 10 20 "").result =
      .error .invalid_token :=
  ⟨(c2_empty_token_amended sv 0 [u3] "longenoughpw" [l1] [o1] 10 20).1,
   (c2_empty_token_amended sv 0 [u4] "longenoughpw" [l1] [o1] 10 20).2.2.2.1,
   (c2_empty_token_amended sv 0 [u2] "longenoughpw" [l1] [o1] 10
     20).2.2.2.2.2.2.1,
   (c2_empty_token_amended sv 0 [u3] "longenoughpw" [l1] [o1] 10
     20).2.2.2.2.2.2.2 l1 o1 (by decide) (by decide) (by decide)⟩

/-- C3: with `checkBeforeSend` true and a non-expired stored timestamp, each
issue flow returns its no-email-sent result having generated no token,
written nothing and sent nothing; with `checkBeforeSend` false, or an absent
or expired stored timestamp, it stores a fresh token with the current
timestamp and sends exactly one email. -/
theorem c3_checkBeforeSend_spec (now : Int) (db : List User)
    (email newTok : String) (checkBeforeSend : Bool)
    (odb : List UserOrganizationLink) (orgs : List Organization)
    (contactEmail newTok2 : String) (user_id organization_id : Nat) :
    (∀ user, findByEmail db email = some user → user.email_verified = false →
      isExpired now user.verify_email_sent_at
        VERIFY_EMAIL_TOKEN_EXPIRATION_DURATION_IN_MINUTES = false →
      (sendEmailAddressVerificationEmail now db email true newTok).result =
        .ok false ∧
      (sendEmailAddressVerificationEmail now db email true newTok).state =
        db ∧
      (sendEmailAddressVerificationEmail now db email true newTok).trace =
        { emailLookups := 1 }) ∧
    (∀ user, findByEmail db email = some user → user.email_verified = false →
      (checkBeforeSend = false ∨
        isExpired now user.verify_email_sent_at
          VERIFY_EMAIL_TOKEN_EXPIRATION_DURATION_IN_MINUTES = true) →
      (sendEmailAddressVerificationEmail now db email checkBeforeSend
        newTok).result = .ok true ∧
      (sendEmailAddressVerificationEmail now db email checkBeforeSend
        newTok).state =
        updateById db user.id (fun u =>
          { u with verify_email_token := some newTok,
                   verify_email_sent_at := some now }) ∧
      (sendEmailAddressVerificationEmail now db email checkBeforeSend
        newTok).trace =
        { emailLookups := 1, tokensGenerated := 1, updates := 1,
          emailsSent := 1 }) ∧
    (∀ user org,
      (getUsers odb organization_id).find? (fun u => u.id == user_id) =
        some user →
      findOrganizationById orgs organization_id = some org →
      user.needs_official_contact_email_verification = true →
      isExpired now user.official_contact_email_verification_sent_at
        OFFICIAL_CONTACT_EMAIL_VERIFICATION_TOKEN_EXPIRATION_DURATION_IN_MINUTES
        = false →
      (sendOfficialContactEmailVerificationEmail now odb orgs
        (.ok contactEmail) user_id organization_id true newTok2).result =
        .ok { codeSent := false, contactEmail := contactEmail,
              libelle := org.cached_libelle } ∧
      (sendOfficialContactEmailVerificationEmail now odb orgs
        (.ok contactEmail) user_id organization_id true newTok2).state =
        odb ∧
      (sendOfficialContactEmailVerificationEmail now odb orgs
        (.ok contactEmail) user_id organization_id true newTok2).trace =
        { emailLookups := 1 }) ∧
    (∀ user org,
      (getUsers odb organization_id).find? (fun u => u.id == user_id) =
        some user →
      findOrganizationById orgs organization_id = some org →
      user.needs_official_contact_email_verification = true →
      (checkBeforeSend = false ∨
        isExpired now user.official_contact_email_verification_sent_at
          OFFICIAL_CONTACT_EMAIL_VERIFICATION_TOKEN_EXPIRATION_DURATION_IN_MINUTES
          = true) →
      (sendOfficialContactEmailVerificationEmail now odb orgs
        (.ok contactEmail) user_id organization_id checkBeforeSend
        newTok2).result =
        .ok { codeSent := true, contactEmail := contactEmail,
              libelle := org.cached_libelle } ∧
      (sendOfficialContactEmailVerificationEmail now odb orgs
        (.ok contactEmail) user_id organization_id checkBeforeSend
        newTok2).state =
        updateUserOrganizationLink odb organization_id user_id (fun l =>
          { l with official_contact_email_verification_token := some newTok2,
                   official_contact_email_verification_sent_at := some now }) ∧
      (sendOfficialContactEmailVerificationEmail now odb orgs
        (.ok contactEmail) user_id organization_id checkBeforeSend
        newTok2).trace =
        { emailLookups := 1, tokensGenerated := 1, updates := 1,
          emailsSent := 1 }) := by
  refine ⟨?_, ?_, ?_, ?_⟩
  · intro user hu hv he
    simp [sendEmailAddressVerificationEmail, hu, hv, he]
  · intro user hu hv hc
    rcases hc with hc | hc
    · subst hc
      simp [sendEmailAddressVerificationEmail, hu, hv]
    · simp [sendEmailAddressVerificationEmail, hu, hv, hc]
  · intro user org hu ho hn he
    simp [sendOfficialContactEmailVerificationEmail, hu, ho, hn, he]
  · intro user org hu ho hn hc
    rcases hc with hc | hc
    · subst hc
      simp [sendOfficialContactEmailVerificationEmail, hu, ho, hn]
    · simp [sendOfficialContactEmailVerificationEmail, hu, ho, hn, hc]

/-- Witness instantiating each branch of `c3_checkBeforeSend_spec`: a skip
with a fresh token under `checkBeforeSend`, and a send without the flag, for
both flows. -/
theorem c3_checkBeforeSend_witness :
    (sendEmailAddressVerificationEmail 100 [u2] "b@ex.fr" true "nt").result =
      .ok false ∧
    (sendEmailAddressVerificationEmail 100 [u2] "b@ex.fr" false "nt").result =
      .ok true ∧
    (sendEmailAddressVerificationEmail 100 [u2] "b@ex.fr" false
      "nt").trace.emailsSent = 1 ∧
    (sendOfficialContactEmailVerificationEmail 100 [l1] [o1]
      (.ok "mairie@ex.fr") 10 20 true "nt2").result =
      .ok { codeSent := false, contactEmail := "mairie@ex.fr",
            libelle := some "Paris" } ∧
    (sendOfficialContactEmailVerificationEmail 100 [l1] [o1]
      (.ok "mairie@ex.fr") 10 20 false "nt2").result =
      .ok { codeSent := true, contactEmail := "mairie@ex.fr",
            libelle := some "Paris" } ∧
    (sendOfficialContactEmailVerificationEmail 100 [l1] [o1]
      (.ok "mairie@ex.fr") 10 20 false "nt2").trace.emailsSent = 1 := by
  have h1 := (c3_checkBeforeSend_spec 100 [u2] "b@ex.fr" "nt" true [l1] [o1]
    "mairie@ex.fr" "nt2" 10 20).1 u2 (by decide) (by decide) (by decide)
  have h2 := (c3_checkBeforeSend_spec 100 [u2] "b@ex.fr" "nt" false [l1] [o1]
    "mairie@ex.fr" "nt2" 10 20).2.1 u2 (by decide) (by decide) (Or.inl rfl)
  have h3 := (c3_checkBeforeSend_spec 100 [u2] "b@ex.fr" "nt" true [l1] [o1]
    "mairie@ex.fr" "nt2" 10 20).2.2.1 l1 o1 (by decide) (by decide)
    (by decide) (by decide)
  have h4 := (c3_checkBeforeSend_spec 100 [u2] "b@ex.fr" "nt" false [l1] [o1]
    "mairie@ex.fr" "nt2" 10 20).2.2.2 l1 o1 (by decide) (by decide)
    (by decide) (Or.inl rfl)
  refine ⟨h1.1, h2.1, ?_, ?_, h4.1, ?_⟩
  · rw [h2.2.2]
  · have := h3.1
    simpa [o1] using this
  · rw [h4.2.2]

/-- C7 counterexample: `sendSendMagicLinkEmail` on an email with no account
does not report an error — it creates the account and still stores a token
and sends the email, returning the plain success `true`. -/
theorem c7_not_found_counterexample :
    findByEmail ([] : List User) "new@ex.fr" = none ∧
    (sendSendMagicLinkEmail 0 [] "new@ex.fr" 7 "tok").result = .ok true ∧
    (sendSendMagicLinkEmail 0 [] "new@ex.fr" 7 "tok").trace.creates = 1 ∧
    (sendSendMagicLinkEmail 0 [] "new@ex.fr" 7 "tok").trace.emailsSent = 1 :=
  ⟨rfl, rfl, rfl, rfl⟩

/-- C7 amended: when the target account is not found,
`sendOfficialContactEmailVerificationEmail` reports the not-found error and
`sendEmailAddressVerificationEmail` fails with a runtime type error
(property access on `undefined`), while `sendSendMagicLinkEmail` instead
creates an account for the email and proceeds to store and send a magic
link. -/
theorem c7_not_found_amended (now : Int) (db : List User)
    (email newTok : String) (newId : Nat) (checkBeforeSend : Bool)
    (odb : List UserOrganizationLink) (orgs : List Organization)
    (contactEmailResult : Except Unit String) (user_id organization_id : Nat)
    (cbs2 : Bool) (newTok2 : String) :
    (findByEmail db email = none →
      (sendEmailAddressVerificationEmail now db email checkBeforeSend
        newTok).result = .error .type_error) ∧
    (findByEmail db email = none →
      (sendSendMagicLinkEmail now db email newId newTok).result = .ok true ∧
      (sendSendMagicLinkEmail now db email newId newTok).trace.creates = 1 ∧
      (sendSendMagicLinkEmail now db email newId
        newTok).trace.emailsSent = 1) ∧
    ((getUsers odb organization_id).find? (fun u => u.id == user_id) = none →
      (sendOfficialContactEmailVerificationEmail now odb orgs
        contactEmailResult user_id organization_id cbs2 newTok2).result =
        .error .not_found) := by
  refine ⟨?_, ?_, ?_⟩
  · intro h
    simp [sendEmailAddressVerificationEmail, h]
  · intro h
    simp [sendSendMagicLinkEmail, h]
  · intro h
    rcases ho : findOrganizationById orgs organization_id with _ | org <;>
      simp [sendOfficialContactEmailVerificationEmail, h, ho]

/-- Witness instantiating `c7_not_found_amended` on missing accounts. -/
theorem c7_not_found_witness :
    (sendEmailAddressVerificationEmail 0 [u1] "zz@ex.fr" false "t").result =
      .error .type_error ∧
    (sendSendMagicLinkEmail 0 [u1] "zz@ex.fr" 7 "t").result = .ok true ∧
    (sendOfficialContactEmailVerificationEmail 0 [l1] [o1] (.ok "c@ex.fr")
      99 20 false "t").result = .error .not_found :=
  ⟨(c7_not_found_amended 0 [u1] "zz@ex.fr" "t" 7 false [l1] [o1]
      (.ok "c@ex.fr") 99 20 false "t").1 (by decide),
   ((c7_not_found_amended 0 [u1] "zz@ex.fr" "t" 7 false [l1] [o1]
      (.ok "c@ex.fr") 99 20 false "t").2.1 (by decide)).1,
   (c7_not_found_amended 0 [u1] "zz@ex.fr" "t" 7 false [l1] [o1]
      (.ok "c@ex.fr") 99 20 false "t").2.2 (by decide)⟩

/-- C8: starting from any database in which each token field is null exactly
when its paired timestamp is, every sequence of account-writing and
link-writing operations preserves that pairing: tokens and timestamps are
only ever written both-fresh or both-null. -/
theorem c8_token_timestamp_invariant (s : Services) (db : List User)
    (ops : List UserOp) (orgs : List Organization)
    (odb : List UserOrganizationLink) (oops : List OrgOp)
    (hdb : ∀ u ∈ db, pairInv u) (hodb : ∀ l ∈ odb, linkInv l) :
    (∀ u ∈ ops.foldl (stepUser s) db, pairInv u) ∧
    (∀ l ∈ oops.foldl (stepOrg orgs) odb, linkInv l) :=
  ⟨foldl_stepUser_pairInv s ops db hdb, foldl_stepOrg_linkInv orgs oops odb hodb⟩

/-- Witness instantiating `c8_token_timestamp_invariant` on a concrete
database and operation sequence. -/
theorem c8_token_timestamp_witness :
    (([UserOp.opSendReset 100 "a@ex.fr" "rt",
       UserOp.opChangePassword 200 "rt" "longenoughpw",
       UserOp.opSendMagic 300 "g@ex.fr" 8 "mt"].foldl (stepUser sv)
         [u1]).all (fun u => decide (pairInv u)) = true) ∧
    (([OrgOp.opVerifyOfficial 100 10 20 "otok"].foldl (stepOrg [o1])
         [l1]).all (fun l => decide (linkInv l)) = true) := by
  have h := c8_token_timestamp_invariant sv [u1]
    [UserOp.opSendReset 100 "a@ex.fr" "rt",
     UserOp.opChangePassword 200 "rt" "longenoughpw",
     UserOp.opSendMagic 300 "g@ex.fr" 8 "mt"] [o1] [l1]
    [OrgOp.opVerifyOfficial 100 10 20 "otok"] (by decide) (by decide)
  exact ⟨List.all_eq_true.mpr (fun u hu => decide_eq_true (h.1 u hu)),
         List.all_eq_true.mpr (fun l hl => decide_eq_true (h.2 l hl))⟩

end MonComptePro
